import Mathlib

/-!
# Verification of the crocodile-bot round engine (src/bot.py)

This file gives a shallow embedding, in Lean 4, of the per-chat round engine
of `src/bot.py`: the scoring functions, the guess matcher, the round state
(`GameState`), the correct-guess resolution (`handle_correct_guess`), the
round-timer timeout resolution (`round_timer`), the join handler
(`callback_join_game`) and the guess path of the general message handler
(`handle_message`).

Modelling conventions:
* Python `float` time values and ratios are modelled as `ℚ`.
* Python `dict` (insertion-ordered) is modelled as an association list.
* The per-(chat, player) statistics store is modelled as a total function
  `Nat → PlayerStats`; `load` is application and `save` is pointwise update.
* `difflib.SequenceMatcher(None, a, b).ratio()` (the body of
  `word_similarity`) is an external-library transcendental-free but
  algorithmically involved function; it is passed as an explicit parameter
  `sim : String → String → ℚ` so that every theorem quantifies over it
  (on equal strings the real ratio is `1`).
* The only non-rational operation in `calculate_elo_change` is `10 ** x`;
  it is likewise passed as a parameter `tenPow : ℚ → ℚ`, and the proved
  properties hold for every value of that parameter.
* `asyncio` suspension points (`await`) matter only for the duplicate-guess
  guard; the state at the first suspension point of `handle_correct_guess`
  is captured explicitly by `hcg_committed`.
-/

/-- Python `int(...)` applied to a nonintegral number truncates toward zero. -/
def pyTrunc (q : ℚ) : Int := if 0 ≤ q then ⌊q⌋ else ⌈q⌉

/-- A character counts for the regex class `\w` (`src/bot.py` tokenizes with
`re.findall(r'\b\w+\b', ...)`); ASCII approximation of Python's unicode `\w`. -/
def isWordChar (c : Char) : Bool := c.isAlphanum || c == '_'

/-- Whitespace for Python's `\s` and `str.split()` / `str.strip()`. -/
def isPySpace (c : Char) : Bool :=
  c == ' ' || c == '\t' || c == '\n' || c == '\r' ||
  c == Char.ofNat 11 || c == Char.ofNat 12

/-- Accumulating tokenizer: splits a character stream into maximal runs of
word characters, as `re.findall(r'\b\w+\b', text)` does. -/
def tokenizeAux : List Char → List Char → List String
  | [], cur => if cur.isEmpty then [] else [String.mk cur.reverse]
  | c :: cs, cur =>
    if isWordChar c then tokenizeAux cs (c :: cur)
    else if cur.isEmpty then tokenizeAux cs []
    else String.mk cur.reverse :: tokenizeAux cs []

/-- Model of `re.findall(r'\b\w+\b', s)`. -/
def findWordTokens (s : String) : List String := tokenizeAux s.toList []

/-- Split a character stream on whitespace, dropping empty pieces,
as Python `str.split()` does. -/
def splitWsAux : List Char → List Char → List (List Char)
  | [], cur => if cur.isEmpty then [] else [cur.reverse]
  | c :: cs, cur =>
    if isPySpace c then
      if cur.isEmpty then splitWsAux cs [] else cur.reverse :: splitWsAux cs []
    else splitWsAux cs (c :: cur)

/-- Python `str.strip()` on a character list. -/
def pyStripChars (l : List Char) : List Char :=
  ((l.dropWhile isPySpace).reverse.dropWhile isPySpace).reverse

/-- Python `str.lower()`; ASCII approximation. -/
def pyLower (s : String) : String := s.toLower

/-- Embeds `normalize_word` from `src/bot.py`: lower-case and fold `ё` to `е`. -/
def normalize_word (w : String) : String :=
  String.mk ((pyLower w).toList.map (fun c => if c == 'ё' then 'е' else c))

/-- Embeds `is_word_guessed` from `src/bot.py`: the normalized message equals the
normalized target, or some token of the message does.  An empty target models
Python's falsy `None`/empty word (the function returns `False` then). -/
def is_word_guessed (message_text : String) (target_word : String) : Bool :=
  if target_word.isEmpty || message_text.isEmpty then false
  else
    let m := normalize_word (String.mk (pyStripChars message_text.toList))
    let t := normalize_word (String.mk (pyStripChars target_word.toList))
    if m == t then true
    else (findWordTokens m).any (fun w => w == t)

/-- Embeds `contains_similar_word` from `src/bot.py`.  `sim` is the external
`word_similarity` (difflib `SequenceMatcher.ratio` on lower-cased strings),
passed as a parameter. -/
def contains_similar_word (sim : String → String → ℚ)
    (text : String) (target_word : String) (threshold : ℚ) : Bool :=
  let ws := findWordTokens (pyLower text)
  let target := pyLower target_word
  ws.any (fun w => threshold ≤ sim w target)

/-- Embeds `is_single_word_guess` from `src/bot.py`: strip characters outside
`\w` and whitespace, strip surrounding whitespace, and require exactly one
whitespace-separated token. -/
def is_single_word_guess (text : String) : Bool :=
  let cleaned := text.toList.filter (fun c => isWordChar c || isPySpace c)
  let stripped := pyStripChars cleaned
  (splitWsAux stripped []).length == 1 && !stripped.isEmpty

/-- Embeds `calculate_level_from_exp` from `src/bot.py`:
`max(1, int(math.sqrt(exp / 100)) + 1)`.  For natural `exp`,
`int(math.sqrt(exp / 100)) = Nat.sqrt (exp / 100)` because
`⌊√(e/100)⌋ = ⌊√⌊e/100⌋⌋` for integers. -/
def calculate_level_from_exp (exp : Nat) : Nat :=
  max 1 (Nat.sqrt (exp / 100) + 1)

/-- Embeds `exp_for_next_level` from `src/bot.py`: `current_level ** 2 * 100`. -/
def exp_for_next_level (current_level : Nat) : Nat :=
  current_level ^ 2 * 100

/-- The speed-bonus band of `calculate_guess_exp` in `src/bot.py`. -/
def guessSpeedBonus (guess_time : ℚ) : Nat :=
  if guess_time < 10 then 80
  else if guess_time < 20 then 50
  else if guess_time < 40 then 30
  else if guess_time < 80 then 15
  else 0

/-- The position-bonus of `calculate_guess_exp` in `src/bot.py`. -/
def guessPositionBonus (position : Nat) (total_competitors : Nat) : Nat :=
  if position = 1 ∧ 1 < total_competitors then 60
  else if position = 1 then 30
  else 0

/-- Embeds `calculate_guess_exp` from `src/bot.py`. -/
def calculate_guess_exp (guess_time : ℚ) (position : Nat)
    (total_competitors : Nat) : Nat :=
  max 15 (40 + guessSpeedBonus guess_time + guessPositionBonus position total_competitors)

/-- Embeds `calculate_leader_exp` from `src/bot.py`. -/
def calculate_leader_exp (round_time : ℚ) (total_words_in_explanation : Nat)
    (was_guessed : Bool) : Nat :=
  if !was_guessed then 10
  else
    let quality_bonus :=
      if 15 ≤ total_words_in_explanation then 50
      else if 8 ≤ total_words_in_explanation then 30
      else if 4 ≤ total_words_in_explanation then 10
      else 0
    max 20 (100 + quality_bonus)

/-- Embeds `calculate_elo_change` from `src/bot.py`.  `tenPow` models the float
operation `10 ** x`; note `guess_time` is accepted but never used, exactly as
in the source. -/
def calculate_elo_change (tenPow : ℚ → ℚ) (winner_elo : Int)
    (competitors_elos : List Int) (guess_time : ℚ) : Int :=
  if competitors_elos.isEmpty then 10
  else
    let avg : ℚ := ((competitors_elos.map (fun e => (e : ℚ))).sum) / competitors_elos.length
    let expected : ℚ := 1 / (1 + tenPow ((avg - (winner_elo : ℚ)) / 400))
    let competition_multiplier : ℚ := 1 + competitors_elos.length * (1/10)
    let change := pyTrunc (32 * (1 - expected) * competition_multiplier)
    max 5 change

/-- The persistent per-(chat, player) statistics record of `src/bot.py`
(the `PlayerStats` class / `player_stats` table row). -/
structure PlayerStats where
  username : Option String
  words_explained : Nat
  words_guessed : Nat
  total_explain_time : ℚ
  total_guess_time : ℚ
  fastest_explain : Option ℚ
  fastest_guess : Option ℚ
  level : Nat
  experience : Nat
  elo_rating : Int
  total_messages_sent : Nat
  short_explanations : Nat
  violations : Nat
  sum_explain_times : ℚ
  sum_guess_times : ℚ
deriving DecidableEq

/-- The default `PlayerStats()` record (fresh player). -/
def defaultStats : PlayerStats :=
  ⟨none, 0, 0, 0, 0, none, none, 1, 0, 1000, 0, 0, 0, 0, 0⟩

/-- A store returning fresh default records everywhere: models a database
with no rows yet (`load_player_stats` returns defaults if absent). -/
def defaultStore : Nat → PlayerStats := fun _ => defaultStats

/-- A competitor entry of `GameState.competitors` in `src/bot.py`:
`{'first_attempt_time': ..., 'attempts_count': ...}`. -/
structure Competitor where
  first_attempt_time : ℚ
  attempts_count : Nat
deriving DecidableEq

/-- The per-chat `GameState` of `src/bot.py`.  `timer_running` models
whether `timer_task` holds a live task. -/
structure GameState where
  leader_id : Option Nat
  current_word : Option String
  is_game_active : Bool
  word_guessed : Bool
  round_start_time : Option ℚ
  timer_running : Bool
  warning_sent : Bool
  leader_messages : List String
  leader_first_message_time : Option ℚ
  guessing_started : Bool
  competitors : List (Nat × Competitor)
deriving DecidableEq

/-- Model of `GameState.__init__`: the freshly created state for a chat. -/
def initGameState : GameState :=
  ⟨none, none, false, false, none, false, false, [], none, false, []⟩

/-- Lookup in the `competitors` dict. -/
def lookupComp (comps : List (Nat × Competitor)) (uid : Nat) : Option Competitor :=
  (comps.find? (fun p => p.1 == uid)).map Prod.snd

/-- The `attempts_count` registered for a player, `0` if unregistered. -/
def attemptsUsed (g : GameState) (uid : Nat) : Nat :=
  ((lookupComp g.competitors uid).map Competitor.attempts_count).getD 0

/-- The shared pattern `if fastest is None or t < fastest: fastest = t`
used for `fastest_explain` / `fastest_guess` in `src/bot.py`. -/
def fastestUpdate (old : Option ℚ) (t : ℚ) : Option ℚ :=
  match old with
  | none => some t
  | some f => if t < f then some t else some f

/-- The winner-side statistics mutation of `handle_correct_guess`
(lines 682–693 of `src/bot.py`). -/
def updateWinnerStats (ws : PlayerStats) (wgt : ℚ) (expg : Nat) (eloc : Int) :
    PlayerStats :=
  { ws with
    words_guessed := ws.words_guessed + 1
    total_guess_time := ws.total_guess_time + wgt
    sum_guess_times := ws.sum_guess_times + wgt
    fastest_guess := fastestUpdate ws.fastest_guess wgt
    experience := ws.experience + expg
    level := calculate_level_from_exp (ws.experience + expg)
    elo_rating := ws.elo_rating + eloc }

/-- The leader-side statistics mutation of `handle_correct_guess`
(lines 698–727 of `src/bot.py`): explain-stat updates, leader experience
with the short-explanation and similar-word penalties, level recomputation.
Returns the updated record and the awarded leader experience. -/
def updateLeaderStatsWin (ls : PlayerStats) (rt : ℚ) (total_words : Nat)
    (ab vio : Bool) : PlayerStats × Nat :=
  let ls1 := { ls with
    words_explained := ls.words_explained + 1
    total_explain_time := ls.total_explain_time + rt
    sum_explain_times := ls.sum_explain_times + rt
    fastest_explain := fastestUpdate ls.fastest_explain rt }
  let le0 := calculate_leader_exp rt total_words true
  let ls2 := if ab then { ls1 with short_explanations := ls1.short_explanations + 1 } else ls1
  let le1 := if ab ∧ 3 ≤ ls1.short_explanations + 1 then max 10 (le0 / 2) else le0
  let ls3 := if vio then { ls2 with violations := ls2.violations + 1 } else ls2
  let le2 := if vio then max 5 (le1 / 3) else le1
  ({ ls3 with
      experience := ls3.experience + le2
      level := calculate_level_from_exp (ls3.experience + le2) }, le2)

/-- The leader-side statistics mutation of the timeout branch of
`round_timer` (lines 572–589 of `src/bot.py`). -/
def updateLeaderTimeout (ls : PlayerStats) (rt : ℚ) : PlayerStats :=
  let ls1 := { ls with
    words_explained := ls.words_explained + 1
    total_explain_time := ls.total_explain_time + rt
    sum_explain_times := ls.sum_explain_times + rt
    fastest_explain := fastestUpdate ls.fastest_explain rt }
  { ls1 with
    experience := ls1.experience + 10
    level := calculate_level_from_exp (ls1.experience + 10)
    elo_rating := max 800 (ls1.elo_rating - 10) }

/-- The round-field reset executed at the end of `handle_correct_guess`
(`is_game_active = False` at line 729 and the field clearing at lines
766–773; `cancel_timer` has already cleared the timer and `warning_sent`). -/
def endRoundState (g : GameState) : GameState :=
  { g with
    is_game_active := false
    word_guessed := false
    leader_id := none
    current_word := none
    round_start_time := none
    timer_running := false
    warning_sent := false
    leader_messages := []
    leader_first_message_time := none
    guessing_started := false
    competitors := [] }

/-- The outcome data of one win resolution: everything
`handle_correct_guess` computes and reports in the victory message. -/
structure WinReport where
  round_time : ℚ
  total_explanation_words : Nat
  leader_abuse_detected : Bool
  violation_detected : Bool
  winner_guess_time : ℚ
  position : Nat
  competitor_elos : List Int
  exp_gained : Nat
  elo_change : Int
  leader_exp : Nat
deriving DecidableEq

/-- The body of `handle_correct_guess` (lines 641–773 of `src/bot.py`) after
the duplicate guard has passed and `current_word` / `round_start_time` are
known to be present.  Returns the final game state, the updated store and the
win report. -/
def hcgCore (tenPow : ℚ → ℚ) (sim : String → String → ℚ) (now : ℚ)
    (winner_id : Nat) (word : String) (rst : ℚ) (g : GameState)
    (store : Nat → PlayerStats) :
    GameState × (Nat → PlayerStats) × WinReport :=
  let rt := now - rst
  let total_words := (g.leader_messages.map (fun m => (findWordTokens m).length)).sum
  let ab := decide (total_words ≤ 3) && !g.leader_messages.isEmpty
  let vio := g.leader_messages.any (fun m => contains_similar_word sim m word (6/10))
  let ws := store winner_id
  let wgt := match lookupComp g.competitors winner_id with
    | some e => now - e.first_attempt_time
    | none => rt
  let celos := (g.competitors.filter (fun p => p.1 ≠ winner_id)).map
    (fun p => (store p.1).elo_rating)
  let expg := calculate_guess_exp wgt 1 (celos.length + 1)
  let eloc := calculate_elo_change tenPow ws.elo_rating celos wgt
  let store1 := fun u => if u = winner_id then updateWinnerStats ws wgt expg eloc else store u
  let report : WinReport := ⟨rt, total_words, ab, vio, wgt, 1, celos, expg, eloc, 0⟩
  match g.leader_id with
  | some lid =>
    let lres := updateLeaderStatsWin (store1 lid) rt total_words ab vio
    let store2 := fun u => if u = lid then lres.1 else store1 u
    (endRoundState g, store2, { report with leader_exp := lres.2 })
  | none => (endRoundState g, store1, report)

/-- Embeds `handle_correct_guess` from `src/bot.py`.  Returns `none` when the Python
code would fail on a missing `current_word`/`round_start_time`; returns
`some (g, store, none)` for the duplicate-guess no-op (round already
resolved); returns `some (g', store', some report)` for a win resolution. -/
def handle_correct_guess (tenPow : ℚ → ℚ) (sim : String → String → ℚ)
    (now : ℚ) (winner_id : Nat) (g : GameState) (store : Nat → PlayerStats) :
    Option (GameState × (Nat → PlayerStats) × Option WinReport) :=
  if g.word_guessed then some (g, store, none)
  else
    match g.current_word, g.round_start_time with
    | some word, some rst =>
      let r := hcgCore tenPow sim now winner_id word rst g store
      some (r.1, r.2.1, some r.2.2)
    | _, _ => none

/-- The state at the first suspension point of `handle_correct_guess`: the
code sets `game.word_guessed = True` (line 638) and only then performs its
first `await` (`cancel_timer`, line 639), so a second event interleaved at
any later suspension observes `word_guessed = true`. -/
def hcg_committed (g : GameState) : GameState := { g with word_guessed := true }

/-- The timeout resolution of `round_timer` (lines 566–610 of `src/bot.py`):
the part that runs after the second sleep.  `none` models the Python failure
on a missing `round_start_time`; the liveness guard (round inactive or word
already guessed) exits silently with the state untouched. -/
def round_timer_timeout (now : ℚ) (g : GameState) (store : Nat → PlayerStats) :
    Option (GameState × (Nat → PlayerStats)) :=
  if !g.is_game_active || g.word_guessed then some (g, store)
  else
    match g.round_start_time with
    | none => none
    | some rst =>
      let rt := now - rst
      let store' := match g.leader_id with
        | some lid => fun u => if u = lid then updateLeaderTimeout (store lid) rt else store u
        | none => store
      let g' := { g with
        is_game_active := false
        word_guessed := false
        leader_id := none
        current_word := none
        round_start_time := none
        leader_messages := []
        leader_first_message_time := none
        guessing_started := false
        competitors := [] }
      some (g', store')

/-- Embeds `send_leader_instructions` from `src/bot.py` (lines 775–791): installs
the leader and a fresh secret word and activates the round. -/
def send_leader_instructions (g : GameState) (leader : Nat) (word : String) :
    GameState :=
  { g with
    leader_id := some leader
    is_game_active := true
    word_guessed := false
    current_word := some word }

/-- Embeds `start_round_timer` from `src/bot.py` (lines 616–629): cancels any
previous timer and clears the per-round fields, then starts a new timer. -/
def start_round_timer (g : GameState) (now : ℚ) : GameState :=
  { g with
    timer_running := true
    round_start_time := some now
    warning_sent := false
    leader_messages := []
    leader_first_message_time := none
    guessing_started := false
    competitors := [] }

/-- Embeds `callback_join_game` from `src/bot.py` (lines 935–952).  The `word`
argument stands for the word drawn by `get_random_word`.  The boolean result
records whether the user was made leader (`false`: "game already running"
rejection). -/
def callback_join_game (g : GameState) (user_id : Nat) (word : String)
    (now : ℚ) : GameState × Bool :=
  if g.is_game_active ∧ ¬ g.leader_id = some user_id then (g, false)
  else (start_round_timer (send_leader_instructions g user_id word) now, true)

/-- The game-message part of `handle_message` from `src/bot.py`
(lines 1143–1180; the reset-statistics handshake of lines 1096–1141 returns
early only for its two trigger phrases and is not modelled).  The boolean
result records whether `handle_correct_guess` would be invoked. -/
def handle_message (now : ℚ) (user_id : Nat) (text : String) (g : GameState) :
    GameState × Bool :=
  if !g.is_game_active then (g, false)
  else if g.leader_id = some user_id then
    let g1 := { g with leader_messages := g.leader_messages ++ [text] }
    let g2 := if g1.leader_first_message_time = none then
        { g1 with leader_first_message_time := some now, guessing_started := true }
      else g1
    (g2, false)
  else if !g.guessing_started then (g, false)
  else if !is_single_word_guess text then (g, false)
  else
    let comps0 := if (lookupComp g.competitors user_id).isNone then
        g.competitors ++ [(user_id, ⟨now, 0⟩)]
      else g.competitors
    let comps1 := comps0.map (fun p =>
      if p.1 = user_id then (p.1, ⟨p.2.first_attempt_time, p.2.attempts_count + 1⟩) else p)
    ({ g with competitors := comps1 },
      is_word_guessed text (g.current_word.getD ""))

/-- A concrete similarity function for witnesses/counterexamples: the real
`SequenceMatcher.ratio` returns `1` on equal strings, which is the only value
these concrete instances depend on. -/
def cSim : String → String → ℚ := fun a b => if a = b then 1 else 0

/-- A concrete stand-in for `10 ** x` used in concrete instances. -/
def cTenPow : ℚ → ℚ := fun _ => 1

/-- Mid-round state: leader 1 explained with a message containing the secret
word itself (a rule violation), no competitors registered yet. -/
def cGame1 : GameState :=
  ⟨some 1, some "slon", true, false, some 0, true, false, ["slon"], some 0, true, []⟩

/-- Mid-round state: leader 1 gave a clean explanation, no competitors. -/
def cGame2 : GameState :=
  ⟨some 1, some "slon", true, false, some 0, true, false,
    ["big animal four legs"], some 0, true, []⟩

/-- Mid-round state with two competitors: player 3 first attempted at `t = 1`,
player 2 (the eventual winner) first attempted at `t = 2`. -/
def cGame3 : GameState :=
  ⟨some 1, some "slon", true, false, some 0, true, false,
    ["big animal"], some 0, true, [(3, ⟨1, 2⟩), (2, ⟨2, 1⟩)]⟩

/-- Mid-round state, parameterized by the attempts already used by player 7. -/
def cGame5 (cap : Nat) : GameState :=
  ⟨some 1, some "slon", true, false, some 0, true, false,
    ["big animal"], some 0, true, [(7, ⟨0, cap⟩)]⟩

/-- Modelled from the spec: the winner's queue position is 1 plus the number
of competitors whose recorded first-attempt time strictly precedes the
winner's first-attempt time (claim C6's stated computation; the source has no
such computation, it hardcodes `position = 1`). -/
def specQueuePosition (comps : List (Nat × Competitor)) (winner : Nat) : Nat :=
  match lookupComp comps winner with
  | none => 1
  | some e => 1 + (comps.filter
      (fun p => decide (p.1 ≠ winner ∧ p.2.first_attempt_time < e.first_attempt_time))).length

/-- Formalization of claim C1 as stated: whenever some leader explanation
message contains a token at/above the similarity threshold (for any
similarity function, in particular the real one), resolving a correct guess
awards no experience and no rating to anyone. -/
def violationVoidsRewards : Prop :=
  ∀ (tenPow : ℚ → ℚ) (sim : String → String → ℚ) (now : ℚ) (w : Nat)
    (g : GameState) (store : Nat → PlayerStats) (cw : String) (u : Nat),
    g.word_guessed = false → g.current_word = some cw →
    (g.leader_messages.any fun m => contains_similar_word sim m cw (6/10)) = true →
    ((handle_correct_guess tenPow sim now w g store).map
        (fun res => ((res.2.1 u).experience, (res.2.1 u).elo_rating)))
      = some ((store u).experience, (store u).elo_rating)

/-- Formalization of claim C2 as stated: for every external ban assignment
giving a player positive remaining ban rounds, `callback_join_game` never
assigns that player as leader. -/
def bannedNeverLeads : Prop :=
  ∀ (bans : Nat → Nat) (p : Nat) (g : GameState) (word : String) (now : ℚ),
    0 < bans p → ¬ (callback_join_game g p word now).1.leader_id = some p

/-- Formalization of claim C4 as stated: a win resolution leaves the winner
installed as leader of a fresh round (the code has no ban mechanism, so the
"unless banned" proviso never bites). -/
def winnerAutoPromoted : Prop :=
  ∀ (tenPow : ℚ → ℚ) (sim : String → String → ℚ) (now : ℚ) (w : Nat)
    (g : GameState) (store : Nat → PlayerStats) (cw : String) (rst : ℚ),
    g.word_guessed = false → g.current_word = some cw →
    g.round_start_time = some rst →
    ((handle_correct_guess tenPow sim now w g store).map
        (fun res => res.1.leader_id)) = some (some w)

/-- Formalization of claim C5 as stated: some positive per-round attempt
ceiling exists past which a non-leader's further guesses are silently
ignored with no state change. -/
def attemptCeilingEnforced : Prop :=
  ∃ cap : Nat, 0 < cap ∧
    ∀ (g : GameState) (uid : Nat) (text : String) (now : ℚ),
      g.is_game_active = true → ¬ g.leader_id = some uid →
      g.guessing_started = true → is_single_word_guess text = true →
      cap ≤ attemptsUsed g uid →
      handle_message now uid text g = (g, false)

/-- Formalization of claim C6 as stated: the position passed to the
guess-experience calculation equals the spec's queue position. -/
def positionFollowsQueue : Prop :=
  ∀ (tenPow : ℚ → ℚ) (sim : String → String → ℚ) (now : ℚ) (w : Nat)
    (g : GameState) (store : Nat → PlayerStats) (cw : String) (rst : ℚ),
    g.word_guessed = false → g.current_word = some cw →
    g.round_start_time = some rst →
    ((handle_correct_guess tenPow sim now w g store).map
        (fun res => res.2.2.map (fun r => r.position)))
      = some (some (specQueuePosition g.competitors w))

/-- C7: `calculate_elo_change` is always at least its configured floor of 5
(the winner never loses rating), and with no competitors it returns exactly
the flat bonus 10 — for every winner rating, competitor list, elapsed time
and every value of the `10 ** x` subexpression. -/
theorem C7_rating_delta_floor (tenPow : ℚ → ℚ) (winner_elo : Int)
    (competitors_elos : List Int) (guess_time : ℚ) :
    5 ≤ calculate_elo_change tenPow winner_elo competitors_elos guess_time ∧
    calculate_elo_change tenPow winner_elo [] guess_time = 10 := by
  constructor
  · cases competitors_elos with
    | nil => simp [calculate_elo_change]
    | cons h t =>
      unfold calculate_elo_change
      simp only [List.isEmpty_cons, if_false]
      exact le_max_left _ _
  · simp [calculate_elo_change]

/-- The speed-bonus band of `calculate_guess_exp` never increases as elapsed
time grows. -/
lemma guessSpeedBonus_antitone {t1 t2 : ℚ} (h : t1 ≤ t2) :
    guessSpeedBonus t2 ≤ guessSpeedBonus t1 := by
  unfold guessSpeedBonus
  split_ifs <;> first | omega | (exfalso; linarith)

/-- C8: `calculate_guess_exp` is monotonically non-increasing in elapsed time
for fixed position and competitor count; at equal elapsed time, position 1
with at least one other competitor strictly outscores position 1 with no
competitors, which strictly outscores every other position. -/
theorem C8_guess_exp_shape :
    (∀ (t1 t2 : ℚ) (p c : Nat), t1 ≤ t2 →
        calculate_guess_exp t2 p c ≤ calculate_guess_exp t1 p c) ∧
    (∀ (t : ℚ) (c1 c0 : Nat), 1 < c1 → c0 ≤ 1 →
        calculate_guess_exp t 1 c0 < calculate_guess_exp t 1 c1) ∧
    (∀ (t : ℚ) (p c c0 : Nat), p ≠ 1 → c0 ≤ 1 →
        calculate_guess_exp t p c < calculate_guess_exp t 1 c0) := by
  refine ⟨?_, ?_, ?_⟩
  · intro t1 t2 p c h
    have hs := guessSpeedBonus_antitone h
    unfold calculate_guess_exp
    omega
  · intro t c1 c0 h1 h0
    unfold calculate_guess_exp guessPositionBonus
    split_ifs <;> omega
  · intro t p c c0 hp h0
    unfold calculate_guess_exp guessPositionBonus
    split_ifs <;> omega

/-- Witness for C8 at concrete inputs. -/
theorem C8_guess_exp_shape_witness :
    ((10 : ℚ) ≤ 30 ∧ calculate_guess_exp 30 1 1 ≤ calculate_guess_exp 10 1 1) ∧
    ((1 : Nat) < 2 ∧ (1 : Nat) ≤ 1 ∧ calculate_guess_exp 5 1 1 < calculate_guess_exp 5 1 2) ∧
    ((2 : Nat) ≠ 1 ∧ calculate_guess_exp 5 2 3 < calculate_guess_exp 5 1 1) :=
  ⟨⟨by norm_num, C8_guess_exp_shape.1 10 30 1 1 (by norm_num)⟩,
   ⟨by norm_num, by norm_num, C8_guess_exp_shape.2.1 5 2 1 (by norm_num) (by norm_num)⟩,
   ⟨by norm_num, C8_guess_exp_shape.2.2 5 2 3 1 (by norm_num) (by norm_num)⟩⟩

/-- The `max(1, ...)` clamp in `calculate_level_from_exp` is redundant. -/
lemma calculate_level_from_exp_eq (e : Nat) :
    calculate_level_from_exp e = Nat.sqrt (e / 100) + 1 := by
  unfold calculate_level_from_exp
  omega

/-- C9: the level computed from experience is at least 1, brackets the
experience between `(L-1)^2*100` (inclusive) and `L^2*100 = exp_for_next_level L`
(exclusive), is monotone in experience, and the displayed progress
`e - (L-1)^2*100` stays strictly below the next-level requirement. -/
theorem C9_level_from_exp (e : Nat) :
    1 ≤ calculate_level_from_exp e ∧
    (calculate_level_from_exp e - 1) ^ 2 * 100 ≤ e ∧
    e < exp_for_next_level (calculate_level_from_exp e) ∧
    exp_for_next_level (calculate_level_from_exp e) = calculate_level_from_exp e ^ 2 * 100 ∧
    e - (calculate_level_from_exp e - 1) ^ 2 * 100 <
      exp_for_next_level (calculate_level_from_exp e) ∧
    (∀ e2 : Nat, e ≤ e2 → calculate_level_from_exp e ≤ calculate_level_from_exp e2) := by
  have hL := calculate_level_from_exp_eq e
  have hlow : Nat.sqrt (e / 100) * Nat.sqrt (e / 100) ≤ e / 100 := Nat.sqrt_le (e / 100)
  have hhigh : e / 100 < (Nat.sqrt (e / 100) + 1) * (Nat.sqrt (e / 100) + 1) :=
    Nat.lt_succ_sqrt (e / 100)
  have hmul1 : Nat.sqrt (e / 100) * Nat.sqrt (e / 100) * 100 ≤ e / 100 * 100 :=
    Nat.mul_le_mul_right 100 hlow
  have hmul2 : (e / 100 + 1) * 100 ≤ (Nat.sqrt (e / 100) + 1) * (Nat.sqrt (e / 100) + 1) * 100 :=
    Nat.mul_le_mul_right 100 hhigh
  have hsq1 : (calculate_level_from_exp e - 1) ^ 2 =
      Nat.sqrt (e / 100) * Nat.sqrt (e / 100) := by
    rw [hL, pow_two, Nat.add_sub_cancel]
  have hsq2 : calculate_level_from_exp e ^ 2 =
      (Nat.sqrt (e / 100) + 1) * (Nat.sqrt (e / 100) + 1) := by
    rw [hL, pow_two]
  have hnext : exp_for_next_level (calculate_level_from_exp e) =
      (Nat.sqrt (e / 100) + 1) * (Nat.sqrt (e / 100) + 1) * 100 := by
    rw [exp_for_next_level, hsq2]
  refine ⟨by omega, ?_, ?_, by rw [exp_for_next_level], ?_, ?_⟩
  · rw [hsq1]; omega
  · rw [hnext]; omega
  · rw [hnext, hsq1]; omega
  · intro e2 h2
    have hdiv : e / 100 ≤ e2 / 100 := Nat.div_le_div_right h2
    have := Nat.sqrt_le_sqrt hdiv
    rw [hL, calculate_level_from_exp_eq e2]
    omega

/-- Witness for C9 at `e = 250` (level 2) against `e2 = 401` (level 3). -/
theorem C9_level_from_exp_witness :
    (1 ≤ calculate_level_from_exp 250 ∧
      (calculate_level_from_exp 250 - 1) ^ 2 * 100 ≤ 250 ∧
      250 < exp_for_next_level (calculate_level_from_exp 250) ∧
      exp_for_next_level (calculate_level_from_exp 250) = calculate_level_from_exp 250 ^ 2 * 100 ∧
      250 - (calculate_level_from_exp 250 - 1) ^ 2 * 100 <
        exp_for_next_level (calculate_level_from_exp 250) ∧
      (∀ e2 : Nat, 250 ≤ e2 → calculate_level_from_exp 250 ≤ calculate_level_from_exp e2)) ∧
    calculate_level_from_exp 250 ≤ calculate_level_from_exp 401 :=
  ⟨C9_level_from_exp 250, (C9_level_from_exp 250).2.2.2.2.2 401 (by norm_num)⟩

/-- The win-path leader update increments `words_explained` by one. -/
lemma updateLeaderStatsWin_words (ls : PlayerStats) (rt : ℚ) (tw : Nat)
    (ab vio : Bool) :
    ((updateLeaderStatsWin ls rt tw ab vio).1).words_explained = ls.words_explained + 1 := by
  unfold updateLeaderStatsWin
  cases ab <;> cases vio <;> simp

/-- The win-path leader update adds the round time to `total_explain_time`. -/
lemma updateLeaderStatsWin_total (ls : PlayerStats) (rt : ℚ) (tw : Nat)
    (ab vio : Bool) :
    ((updateLeaderStatsWin ls rt tw ab vio).1).total_explain_time =
      ls.total_explain_time + rt := by
  unfold updateLeaderStatsWin
  cases ab <;> cases vio <;> simp

/-- The win-path leader update adds the round time to `sum_explain_times`. -/
lemma updateLeaderStatsWin_sum (ls : PlayerStats) (rt : ℚ) (tw : Nat)
    (ab vio : Bool) :
    ((updateLeaderStatsWin ls rt tw ab vio).1).sum_explain_times =
      ls.sum_explain_times + rt := by
  unfold updateLeaderStatsWin
  cases ab <;> cases vio <;> simp

/-- The win-path leader update lowers `fastest_explain` to the round time
when it is smaller. -/
lemma updateLeaderStatsWin_fastest (ls : PlayerStats) (rt : ℚ) (tw : Nat)
    (ab vio : Bool) :
    ((updateLeaderStatsWin ls rt tw ab vio).1).fastest_explain =
      fastestUpdate ls.fastest_explain rt := by
  unfold updateLeaderStatsWin
  cases ab <;> cases vio <;> simp

/-- With a detected similar-word violation the leader's violation counter is
incremented by exactly one. -/
lemma updateLeaderStatsWin_violations (ls : PlayerStats) (rt : ℚ) (tw : Nat)
    (ab : Bool) :
    ((updateLeaderStatsWin ls rt tw ab true).1).violations = ls.violations + 1 := by
  unfold updateLeaderStatsWin
  cases ab <;> simp

/-- The leader's experience grows by exactly the awarded leader experience. -/
lemma updateLeaderStatsWin_experience (ls : PlayerStats) (rt : ℚ) (tw : Nat)
    (ab vio : Bool) :
    ((updateLeaderStatsWin ls rt tw ab vio).1).experience =
      ls.experience + (updateLeaderStatsWin ls rt tw ab vio).2 := by
  unfold updateLeaderStatsWin
  cases ab <;> cases vio <;> simp

/-- The awarded leader experience is at least 5 in every branch. -/
lemma updateLeaderStatsWin_snd_ge_five (ls : PlayerStats) (rt : ℚ) (tw : Nat)
    (ab vio : Bool) :
    5 ≤ (updateLeaderStatsWin ls rt tw ab vio).2 := by
  unfold updateLeaderStatsWin calculate_leader_exp
  cases ab <;> cases vio <;> simp <;> split_ifs <;> omega

/-- C10: when the round timer resolves a timeout with a leader assigned, the
leader's persistent stats are mutated beyond the experience-and-rating
penalty: `words_explained` is incremented, `total_explain_time` and
`sum_explain_times` grow by the round duration, `fastest_explain` is lowered
to the round duration when smaller — exactly the same explained-word
bookkeeping as the win path performs. -/
theorem C10_timeout_counts_as_explained (now rst : ℚ) (g : GameState)
    (store : Nat → PlayerStats) (lid : Nat)
    (ha : g.is_game_active = true) (hw : g.word_guessed = false)
    (hl : g.leader_id = some lid) (hr : g.round_start_time = some rst) :
    ∃ g' store', round_timer_timeout now g store = some (g', store') ∧
      (store' lid).words_explained = (store lid).words_explained + 1 ∧
      (store' lid).total_explain_time = (store lid).total_explain_time + (now - rst) ∧
      (store' lid).sum_explain_times = (store lid).sum_explain_times + (now - rst) ∧
      (store' lid).fastest_explain = fastestUpdate (store lid).fastest_explain (now - rst) ∧
      (store' lid).experience = (store lid).experience + 10 ∧
      (store' lid).elo_rating = max 800 ((store lid).elo_rating - 10) ∧
      (∀ (tw : Nat) (ab vio : Bool),
        (store' lid).words_explained =
          ((updateLeaderStatsWin (store lid) (now - rst) tw ab vio).1).words_explained ∧
        (store' lid).total_explain_time =
          ((updateLeaderStatsWin (store lid) (now - rst) tw ab vio).1).total_explain_time ∧
        (store' lid).sum_explain_times =
          ((updateLeaderStatsWin (store lid) (now - rst) tw ab vio).1).sum_explain_times ∧
        (store' lid).fastest_explain =
          ((updateLeaderStatsWin (store lid) (now - rst) tw ab vio).1).fastest_explain) := by
  have hmain : round_timer_timeout now g store =
      some ({ g with
        is_game_active := false
        word_guessed := false
        leader_id := none
        current_word := none
        round_start_time := none
        leader_messages := []
        leader_first_message_time := none
        guessing_started := false
        competitors := [] },
        fun u => if u = lid then updateLeaderTimeout (store lid) (now - rst) else store u) := by
    unfold round_timer_timeout
    rw [ha, hw, hr, hl]
    rfl
  refine ⟨_, _, hmain, ?_⟩
  have hsel : (if lid = lid then updateLeaderTimeout (store lid) (now - rst) else store lid)
      = updateLeaderTimeout (store lid) (now - rst) := if_pos rfl
  rw [hsel]
  refine ⟨by simp [updateLeaderTimeout], by simp [updateLeaderTimeout],
    by simp [updateLeaderTimeout], by simp [updateLeaderTimeout],
    by simp [updateLeaderTimeout], by simp [updateLeaderTimeout], ?_⟩
  intro tw ab vio
  rw [updateLeaderStatsWin_words, updateLeaderStatsWin_total,
    updateLeaderStatsWin_sum, updateLeaderStatsWin_fastest]
  exact ⟨by simp [updateLeaderTimeout], by simp [updateLeaderTimeout],
    by simp [updateLeaderTimeout], by simp [updateLeaderTimeout]⟩

/-- Witness for C10: a concrete active round timing out at `t = 100`. -/
theorem C10_timeout_counts_as_explained_witness :
    cGame2.is_game_active = true ∧ cGame2.word_guessed = false ∧
    cGame2.leader_id = some 1 ∧ cGame2.round_start_time = some 0 ∧
    (∃ g' store', round_timer_timeout 100 cGame2 defaultStore = some (g', store') ∧
      (store' 1).words_explained = (defaultStore 1).words_explained + 1 ∧
      (store' 1).total_explain_time = (defaultStore 1).total_explain_time + (100 - 0) ∧
      (store' 1).sum_explain_times = (defaultStore 1).sum_explain_times + (100 - 0) ∧
      (store' 1).fastest_explain = fastestUpdate (defaultStore 1).fastest_explain (100 - 0) ∧
      (store' 1).experience = (defaultStore 1).experience + 10 ∧
      (store' 1).elo_rating = max 800 ((defaultStore 1).elo_rating - 10) ∧
      (∀ (tw : Nat) (ab vio : Bool),
        (store' 1).words_explained =
          ((updateLeaderStatsWin (defaultStore 1) (100 - 0) tw ab vio).1).words_explained ∧
        (store' 1).total_explain_time =
          ((updateLeaderStatsWin (defaultStore 1) (100 - 0) tw ab vio).1).total_explain_time ∧
        (store' 1).sum_explain_times =
          ((updateLeaderStatsWin (defaultStore 1) (100 - 0) tw ab vio).1).sum_explain_times ∧
        (store' 1).fastest_explain =
          ((updateLeaderStatsWin (defaultStore 1) (100 - 0) tw ab vio).1).fastest_explain)) :=
  ⟨rfl, rfl, rfl, rfl,
    C10_timeout_counts_as_explained 100 0 cGame2 defaultStore 1 rfl rfl rfl rfl⟩

/-- On an unresolved round with a word and a start time present, the handler
runs `hcgCore`. -/
lemma handle_correct_guess_run (tenPow : ℚ → ℚ) (sim : String → String → ℚ)
    (now : ℚ) (w : Nat) (g : GameState) (store : Nat → PlayerStats)
    (cw : String) (rst : ℚ)
    (hwg : g.word_guessed = false) (hcw : g.current_word = some cw)
    (hrst : g.round_start_time = some rst) :
    handle_correct_guess tenPow sim now w g store =
      some ((hcgCore tenPow sim now w cw rst g store).1,
            (hcgCore tenPow sim now w cw rst g store).2.1,
            some (hcgCore tenPow sim now w cw rst g store).2.2) := by
  unfold handle_correct_guess
  rw [hwg, hcw, hrst]
  rfl

/-- Reduction: `hcgCore` always ends the round by clearing the round fields. -/
lemma hcgCore_fst (tenPow : ℚ → ℚ) (sim : String → String → ℚ)
    (now : ℚ) (w : Nat) (cw : String) (rst : ℚ) (g : GameState)
    (store : Nat → PlayerStats) :
    (hcgCore tenPow sim now w cw rst g store).1 = endRoundState g := by
  unfold hcgCore
  cases hl : g.leader_id <;> simp [hl]

/-- The report's position field is the hardcoded `1`. -/
lemma hcgCore_position (tenPow : ℚ → ℚ) (sim : String → String → ℚ)
    (now : ℚ) (w : Nat) (cw : String) (rst : ℚ) (g : GameState)
    (store : Nat → PlayerStats) :
    ((hcgCore tenPow sim now w cw rst g store).2.2).position = 1 := by
  unfold hcgCore
  cases hl : g.leader_id <;> simp [hl]

/-- The reported experience award is computed from the hardcoded position 1. -/
lemma hcgCore_exp_gained (tenPow : ℚ → ℚ) (sim : String → String → ℚ)
    (now : ℚ) (w : Nat) (cw : String) (rst : ℚ) (g : GameState)
    (store : Nat → PlayerStats) :
    ((hcgCore tenPow sim now w cw rst g store).2.2).exp_gained =
      calculate_guess_exp ((hcgCore tenPow sim now w cw rst g store).2.2).winner_guess_time 1
        (((hcgCore tenPow sim now w cw rst g store).2.2).competitor_elos.length + 1) := by
  unfold hcgCore
  cases hl : g.leader_id <;> simp [hl]

/-- C3: `handle_correct_guess` checks and commits `word_guessed` before its
first suspension point (`await cancel_timer`); a first correct guess on an
unresolved round produces exactly one win resolution, and any duplicate
correct-guess event processed from the committed state on — with any
arguments and any store — is a pure no-op that grants no second reward. -/
theorem C3_single_win_resolution (tenPow tenPow2 : ℚ → ℚ)
    (sim sim2 : String → String → ℚ) (now now2 : ℚ) (w w2 : Nat)
    (g : GameState) (store store2 : Nat → PlayerStats) (cw : String) (rst : ℚ)
    (hwg : g.word_guessed = false) (hcw : g.current_word = some cw)
    (hrst : g.round_start_time = some rst) :
    (∃ g1 st1 r, handle_correct_guess tenPow sim now w g store = some (g1, st1, some r)) ∧
    handle_correct_guess tenPow2 sim2 now2 w2 (hcg_committed g) store2 =
      some (hcg_committed g, store2, none) := by
  constructor
  · exact ⟨_, _, _, handle_correct_guess_run tenPow sim now w g store cw rst hwg hcw hrst⟩
  · unfold handle_correct_guess hcg_committed
    simp

/-- Witness for C3 at a concrete mid-round state. -/
theorem C3_single_win_resolution_witness :
    cGame2.word_guessed = false ∧ cGame2.current_word = some "slon" ∧
    cGame2.round_start_time = some 0 ∧
    ((∃ g1 st1 r, handle_correct_guess cTenPow cSim 5 2 cGame2 defaultStore = some (g1, st1, some r)) ∧
      handle_correct_guess cTenPow cSim 6 3 (hcg_committed cGame2) defaultStore =
        some (hcg_committed cGame2, defaultStore, none)) :=
  ⟨rfl, rfl, rfl,
    C3_single_win_resolution cTenPow cTenPow cSim cSim 5 6 2 3 cGame2
      defaultStore defaultStore "slon" 0 rfl rfl rfl⟩

/-- C2 counterexample: the code keeps no ban registry at all — for the ban
assignment giving player 7 one remaining ban round, `callback_join_game`
still installs player 7 as leader of a fresh round, so the claimed guarantee
is false. -/
theorem C2_counterexample : bannedNeverLeads ↔ False := by
  simp only [iff_false]
  intro h
  exact h (fun _ => 1) 7 initGameState "slon" 0 (by norm_num) rfl

/-- C2 (amended): `src/bot.py` implements no leader-ban mechanism;
`callback_join_game` installs any requesting user as leader whenever no
round is active or the user already leads, with no `LeaderBanned`
rejection and no per-round ban decrement anywhere in the code. -/
theorem C2_join_ignores_bans (g : GameState) (uid : Nat) (word : String)
    (now : ℚ)
    (h : g.is_game_active = false ∨ g.leader_id = some uid) :
    (callback_join_game g uid word now).2 = true ∧
    (callback_join_game g uid word now).1.leader_id = some uid ∧
    (callback_join_game g uid word now).1.is_game_active = true := by
  have hc : ¬ (g.is_game_active = true ∧ ¬ g.leader_id = some uid) := by
    rcases h with h | h
    · intro hx; rw [h] at hx; exact absurd hx.1 (by simp)
    · intro hx; exact hx.2 h
  unfold callback_join_game
  rw [if_neg hc]
  exact ⟨rfl, rfl, rfl⟩

/-- Witness for the amended C2: on a fresh chat state any user joins. -/
theorem C2_join_ignores_bans_witness :
    (initGameState.is_game_active = false ∨ initGameState.leader_id = some 7) ∧
    ((callback_join_game initGameState 7 "slon" 0).2 = true ∧
      (callback_join_game initGameState 7 "slon" 0).1.leader_id = some 7 ∧
      (callback_join_game initGameState 7 "slon" 0).1.is_game_active = true) :=
  ⟨Or.inl rfl, C2_join_ignores_bans initGameState 7 "slon" 0 (Or.inl rfl)⟩

/-- Looking up a player after the attempt-increment map adds one to that
player's attempt count. -/
lemma lookupComp_increment (l : List (Nat × Competitor)) (uid : Nat) :
    lookupComp (l.map (fun p =>
        if p.1 = uid then (p.1, ⟨p.2.first_attempt_time, p.2.attempts_count + 1⟩) else p)) uid
      = (lookupComp l uid).map (fun c => ⟨c.first_attempt_time, c.attempts_count + 1⟩) := by
  induction l with
  | nil => rfl
  | cons hd tl ih =>
    rcases hd with ⟨k, c⟩
    by_cases hh : k = uid
    · subst hh
      simp [lookupComp, List.find?_cons]
    · have hb : (k == uid) = false := by simp [hh]
      simp only [lookupComp, List.map_cons] at ih ⊢
      rw [if_neg hh]
      rw [List.find?_cons, List.find?_cons]
      simp only [hb]
      simpa using ih

/-- Appending a fresh entry for an unregistered player makes the lookup
find it. -/
lemma lookupComp_append_of_none (l : List (Nat × Competitor)) (uid : Nat)
    (c : Competitor) (h : lookupComp l uid = none) :
    lookupComp (l ++ [(uid, c)]) uid = some c := by
  induction l with
  | nil => simp [lookupComp]
  | cons hd tl ih =>
    by_cases hh : hd.1 = uid
    · exfalso
      simp [lookupComp, List.find?_cons, hh] at h
    · have hb : (hd.1 == uid) = false := by simp [hh]
      simp only [lookupComp, List.find?_cons, hb] at h ⊢
      simp only [List.cons_append]
      simp only [lookupComp, List.find?_cons, hb] at ih ⊢
      exact ih h

/-- C5 counterexample: no attempt ceiling exists — for every candidate cap,
a player already at that many attempts still has their next single-token
guess processed and their counter incremented, so the state does change. -/
theorem C5_counterexample : attemptCeilingEnforced ↔ False := by
  simp only [iff_false]
  rintro ⟨cap, hpos, hall⟩
  have h := hall (cGame5 cap) 7 "xyz" 0 rfl (by simp [cGame5]) rfl (by decide)
    (le_refl cap)
  have h2 : attemptsUsed (handle_message 0 7 "xyz" (cGame5 cap)).1 7 = cap + 1 := rfl
  rw [h] at h2
  have h3 : attemptsUsed (cGame5 cap) 7 = cap := rfl
  rw [h3] at h2
  omega

/-- C5 (amended): `handle_message` imposes no attempt ceiling: every
single-token guess from a non-leader while guessing is open increments that
player's `attempts_count` by exactly one (registering the player on first
attempt) and is always checked against the secret word. -/
theorem C5_no_attempt_ceiling (now : ℚ) (uid : Nat) (text : String)
    (g : GameState)
    (h1 : g.is_game_active = true) (h2 : ¬ g.leader_id = some uid)
    (h3 : g.guessing_started = true) (h4 : is_single_word_guess text = true) :
    attemptsUsed (handle_message now uid text g).1 uid = attemptsUsed g uid + 1 ∧
    (handle_message now uid text g).2 = is_word_guessed text (g.current_word.getD "") := by
  unfold handle_message
  rw [h1, h3, h4, if_neg h2]
  simp only [Bool.not_true, Bool.false_eq_true, if_false]
  constructor
  · cases hlk : lookupComp g.competitors uid with
    | none =>
      simp only [hlk, Option.isNone_none, if_true]
      unfold attemptsUsed
      rw [lookupComp_increment]
      rw [lookupComp_append_of_none g.competitors uid ⟨now, 0⟩ hlk]
      rw [hlk]
      rfl
    | some e =>
      simp only [hlk, Option.isNone_some, Bool.false_eq_true, if_false]
      unfold attemptsUsed
      rw [lookupComp_increment]
      rw [hlk]
      rfl
  · trivial

/-- Witness for the amended C5: player 7's thousandth-plus-one attempt is
still processed. -/
theorem C5_no_attempt_ceiling_witness :
    ((cGame5 1000).is_game_active = true ∧ ¬ (cGame5 1000).leader_id = some 7 ∧
      (cGame5 1000).guessing_started = true ∧ is_single_word_guess "xyz" = true) ∧
    (attemptsUsed (handle_message 0 7 "xyz" (cGame5 1000)).1 7 = attemptsUsed (cGame5 1000) 7 + 1 ∧
      (handle_message 0 7 "xyz" (cGame5 1000)).2 =
        is_word_guessed "xyz" ((cGame5 1000).current_word.getD "")) :=
  ⟨⟨rfl, by decide, rfl, by decide⟩,
    C5_no_attempt_ceiling 0 7 "xyz" (cGame5 1000) rfl (by decide) rfl (by decide)⟩

/-- The guess-experience award never drops below 15. -/
lemma calculate_guess_exp_ge (t : ℚ) (p c : Nat) :
    15 ≤ calculate_guess_exp t p c := le_max_left _ _

/-- C1 counterexample: at a concrete round whose single leader message is
the secret word itself (similarity 1 ≥ 0.6), resolving the correct guess
still awards the winner 150 experience and +10 rating — the claim that no
experience/rating is awarded to anyone is false. -/
theorem C1_counterexample : violationVoidsRewards ↔ False := by
  simp only [iff_false]
  intro h
  have h2 := h cTenPow cSim 5 2 cGame1 defaultStore "slon" 2 rfl rfl
    (by with_unfolding_all decide)
  exact absurd h2 (by with_unfolding_all decide)

/-- C1 (amended): when a leader message contains a token at/above the 0.6
similarity threshold, `handle_correct_guess` still resolves the round as a
win: the winner receives the full experience and rating rewards, while the
leader's violation counter is incremented and the leader's experience award
is cut (to `max 5 (exp / 3)`, still positive). -/
theorem C1_violation_still_win (tenPow : ℚ → ℚ) (sim : String → String → ℚ)
    (now : ℚ) (w lid : Nat) (g : GameState) (store : Nat → PlayerStats)
    (cw : String) (rst : ℚ)
    (hwg : g.word_guessed = false) (hcw : g.current_word = some cw)
    (hrst : g.round_start_time = some rst) (hlid : g.leader_id = some lid)
    (hne : lid ≠ w)
    (hviol : (g.leader_messages.any fun m => contains_similar_word sim m cw (6/10)) = true) :
    ∃ st' r, handle_correct_guess tenPow sim now w g store =
        some (endRoundState g, st', some r) ∧
      r.violation_detected = true ∧
      (st' lid).violations = (store lid).violations + 1 ∧
      (st' lid).experience = (store lid).experience + r.leader_exp ∧
      5 ≤ r.leader_exp ∧
      (st' w).experience = (store w).experience + r.exp_gained ∧
      15 ≤ r.exp_gained ∧
      (st' w).elo_rating = (store w).elo_rating + r.elo_change := by
  have hrun := handle_correct_guess_run tenPow sim now w g store cw rst hwg hcw hrst
  rw [hcgCore_fst] at hrun
  have hne' : w ≠ lid := Ne.symm hne
  refine ⟨_, _, hrun, ?_, ?_, ?_, ?_, ?_, ?_, ?_⟩ <;>
    unfold hcgCore <;>
    simp [hlid, hviol, hne, hne', updateLeaderStatsWin_violations,
      updateLeaderStatsWin_experience, updateLeaderStatsWin_snd_ge_five,
      updateWinnerStats, calculate_guess_exp_ge]

/-- Witness for the amended C1 at the concrete violating round. -/
theorem C1_violation_still_win_witness :
    ((cGame1.leader_messages.any fun m => contains_similar_word cSim m "slon" (6/10)) = true) ∧
    (∃ st' r, handle_correct_guess cTenPow cSim 5 2 cGame1 defaultStore =
        some (endRoundState cGame1, st', some r) ∧
      r.violation_detected = true ∧
      (st' 1).violations = (defaultStore 1).violations + 1 ∧
      (st' 1).experience = (defaultStore 1).experience + r.leader_exp ∧
      5 ≤ r.leader_exp ∧
      (st' 2).experience = (defaultStore 2).experience + r.exp_gained ∧
      15 ≤ r.exp_gained ∧
      (st' 2).elo_rating = (defaultStore 2).elo_rating + r.elo_change) :=
  ⟨by with_unfolding_all decide,
    C1_violation_still_win cTenPow cSim 5 2 1 cGame1 defaultStore "slon" 0
      rfl rfl rfl rfl (by decide) (by with_unfolding_all decide)⟩

/-- C4 counterexample: at a concrete clean win, the post-resolution state has
`leader_id = none` — the winner is not installed as the next leader (and no
ban exists that could excuse it), so the claim is false. -/
theorem C4_counterexample : winnerAutoPromoted ↔ False := by
  simp only [iff_false]
  intro h
  have h2 := h cTenPow cSim 5 2 cGame2 defaultStore "slon" 0 rfl rfl rfl
  exact absurd h2 (by with_unfolding_all decide)

/-- C4 (amended): after `handle_correct_guess` resolves a win it clears the
round entirely: `leader_id = none` and `is_game_active = false`; no fresh
round is started for the winner — the next leader is whoever presses the
join button (the victory message merely invites them). -/
theorem C4_round_ends_without_promotion (tenPow : ℚ → ℚ)
    (sim : String → String → ℚ) (now : ℚ) (w : Nat) (g : GameState)
    (store : Nat → PlayerStats) (cw : String) (rst : ℚ)
    (hwg : g.word_guessed = false) (hcw : g.current_word = some cw)
    (hrst : g.round_start_time = some rst) :
    ∃ st' r, handle_correct_guess tenPow sim now w g store =
        some (endRoundState g, st', some r) ∧
      (endRoundState g).leader_id = none ∧
      (endRoundState g).is_game_active = false := by
  have hrun := handle_correct_guess_run tenPow sim now w g store cw rst hwg hcw hrst
  rw [hcgCore_fst] at hrun
  exact ⟨_, _, hrun, rfl, rfl⟩

/-- Witness for the amended C4 at a concrete clean win. -/
theorem C4_round_ends_without_promotion_witness :
    cGame2.word_guessed = false ∧
    (∃ st' r, handle_correct_guess cTenPow cSim 5 2 cGame2 defaultStore =
        some (endRoundState cGame2, st', some r) ∧
      (endRoundState cGame2).leader_id = none ∧
      (endRoundState cGame2).is_game_active = false) :=
  ⟨rfl, C4_round_ends_without_promotion cTenPow cSim 5 2 cGame2 defaultStore
    "slon" 0 rfl rfl rfl⟩

/-- C6 counterexample: with competitor 3's first attempt (t = 1) preceding
winner 2's (t = 2), the spec's queue position is 2, but the code passes the
hardcoded position 1 to the experience calculation. -/
theorem C6_counterexample : positionFollowsQueue ↔ False := by
  simp only [iff_false]
  intro h
  have h2 := h cTenPow cSim 5 2 cGame3 defaultStore "slon" 0 rfl rfl rfl
  exact absurd h2 (by with_unfolding_all decide)

/-- C6 (amended): `handle_correct_guess` always passes position 1 to the
guess-experience calculation, regardless of the competitors' recorded
first-attempt times. -/
theorem C6_position_hardcoded_one (tenPow : ℚ → ℚ)
    (sim : String → String → ℚ) (now : ℚ) (w : Nat) (g : GameState)
    (store : Nat → PlayerStats) (cw : String) (rst : ℚ)
    (hwg : g.word_guessed = false) (hcw : g.current_word = some cw)
    (hrst : g.round_start_time = some rst) :
    ∃ g' st' r, handle_correct_guess tenPow sim now w g store = some (g', st', some r) ∧
      r.position = 1 ∧
      r.exp_gained = calculate_guess_exp r.winner_guess_time 1
        (r.competitor_elos.length + 1) := by
  refine ⟨_, _, _,
    handle_correct_guess_run tenPow sim now w g store cw rst hwg hcw hrst, ?_, ?_⟩
  · exact hcgCore_position tenPow sim now w cw rst g store
  · exact hcgCore_exp_gained tenPow sim now w cw rst g store

/-- Witness for the amended C6 at the two-competitor round. -/
theorem C6_position_hardcoded_one_witness :
    cGame3.word_guessed = false ∧
    (∃ g' st' r, handle_correct_guess cTenPow cSim 5 2 cGame3 defaultStore =
        some (g', st', some r) ∧
      r.position = 1 ∧
      r.exp_gained = calculate_guess_exp r.winner_guess_time 1
        (r.competitor_elos.length + 1)) :=
  ⟨rfl, C6_position_hardcoded_one cTenPow cSim 5 2 cGame3 defaultStore
    "slon" 0 rfl rfl rfl⟩
